import Mathlib

/-!
Shallow embedding of the gpt-trader-backend signal-synthesis pipeline
(`vision_analyzer.py`, `data_analyzer.py`, `main.py`) and verification of
its stated properties.  Real arithmetic is modelled over `ℚ`; Python's
`round(x, n)` (banker's rounding) is `roundTo n`; possibly-NaN indicator
values are `Option ℚ`, with comparisons against an undefined value
evaluating to `false`, as IEEE comparisons with NaN do.
-/

/-- Banker's rounding to the nearest integer (Python's `round`):
ties go to the even integer. -/
def roundHalfEven (q : ℚ) : ℤ :=
  if q - ⌊q⌋ = 1 / 2 then (if ⌊q⌋ % 2 = 0 then ⌊q⌋ else ⌊q⌋ + 1) else round q

/-- Python's `round(q, n)`: round to `n` decimal places, ties to even. -/
def roundTo (n : ℕ) (q : ℚ) : ℚ :=
  (roundHalfEven (q * 10 ^ n) : ℚ) / 10 ^ n

/-- `np.clip(x, 0, 1)`. -/
def clip01 (x : ℚ) : ℚ := min (max x 0) 1

/- ===== vision_analyzer.py ===== -/

/-- Symbol vocabulary scanned by `analyze_chart_image`, in declaration order. -/
def symbolVocab : List String :=
  ["EURUSD", "XAUUSD", "BTCUSD", "GBPUSD", "USDJPY", "NAS100", "SPX500"]

/-- Timeframe vocabulary scanned by `analyze_chart_image`, in declaration order. -/
def timeframeVocab : List String :=
  ["M1", "M5", "M15", "M30", "H1", "H4", "D1"]

/-- `s.upper()` (ASCII uppercasing of the OCR text). -/
def upper (s : String) : String := ⟨s.data.map Char.toUpper⟩

/-- Python's `tok in text.upper()`: substring occurrence test. -/
def occursIn (tok text : String) : Bool :=
  decide (tok.data <:+: (upper text).data)

/-- The `for ... if tok in ocr.upper(): break` loop: first vocabulary member
occurring in the uppercased text, if any. -/
def firstMatch (vocab : List String) (text : String) : Option String :=
  vocab.find? (fun v => occursIn v text)

/-- Pattern classification from the external-contour count
(`vision_analyzer.py` lines 43-47): `if n > 50` is tested before
`elif n > 100`. -/
def classifyPattern (n : ℕ) : String :=
  if n > 50 then "Double Bottom"
  else if n > 100 then "Head and Shoulders"
  else "Neutral"

/-- Python's f-string rendering of a possibly-`None` variable. -/
def pyOptStr : Option String → String
  | none => "None"
  | some s => s

/-- Abstraction of a decoded chart image: what the downstream logic reads
from it (the OCR text and the external-contour count). -/
structure ChartImage where
  ocrText : String
  contourCount : ℕ

/-- The dict returned by `analyze_chart_image`. -/
structure VisionResult where
  symbol : String
  timeframe : String
  signal : String
  pattern : String
  confidence : ℚ
  reason : String
  entry : ℚ
  stop : ℚ
  tp1 : ℚ
  tp2 : ℚ
  risk_percent : ℚ
  rr : ℚ
  warnings : List String

/-- `vision_analyzer.analyze_chart_image`, given the decoded image features. -/
def analyze_chart_image (img : ChartImage) : VisionResult :=
  let symbol := firstMatch symbolVocab img.ocrText
  let timeframe := firstMatch timeframeVocab img.ocrText
  let pattern := classifyPattern img.contourCount
  let signal :=
    if pattern = "Double Bottom" then "LONG"
    else if pattern = "Head and Shoulders" then "SHORT"
    else "NEUTRAL"
  { symbol := symbol.getD "Unknown"
    timeframe := timeframe.getD "Unknown"
    signal := signal
    pattern := pattern
    confidence := if signal ≠ "NEUTRAL" then 75 else 50
    reason := "Detección de patrón " ++ pattern ++ " y texto "
      ++ pyOptStr symbol ++ "/" ++ pyOptStr timeframe
    entry := 1.2345
    stop := 1.2300
    tp1 := 1.2400
    tp2 := 1.2450
    risk_percent := 1.0
    rr := 2.0
    warnings := [] }

/- ===== data_analyzer.py =====
The `ta` library computes each indicator with pandas `ewm(adjust=False,
min_periods=window)`: the recurrence `y[t] = (1-a)*y[t-1] + a*x[t]` seeded
with the first observation, and the output masked as NaN until `window`
observations have been seen.  An undefined (NaN) value is `none`. -/

/-- One step of the `ewm(adjust=False)` recurrence. -/
def ewmStep (a y x : ℚ) : ℚ := (1 - a) * y + a * x

/-- Final value of the `ewm(adjust=False)` recurrence seeded at `y`. -/
def ewmLast (a y : ℚ) (xs : List ℚ) : ℚ := xs.foldl (ewmStep a) y

/-- Running values of the `ewm(adjust=False)` recurrence after seeding. -/
def ewmSeqFrom (a y : ℚ) : List ℚ → List ℚ
  | [] => []
  | x :: xs => ewmStep a y x :: ewmSeqFrom a (ewmStep a y x) xs

/-- Full `ewm(adjust=False)` trajectory: seeded with the first observation. -/
def ewmSeq (a : ℚ) : List ℚ → List ℚ
  | [] => []
  | x :: xs => x :: ewmSeqFrom a x xs

/-- Smoothing factor `2/(span+1)` used by `ewm(span=w)`. -/
def emaAlpha (w : ℕ) : ℚ := 2 / ((w : ℚ) + 1)

/-- Last value of `EMAIndicator(close, window=w)`: NaN (`none`) until `w`
bars are available (`min_periods = w`). -/
def emaLast (w : ℕ) : List ℚ → Option ℚ
  | [] => none
  | c :: cs => if w ≤ cs.length + 1 then some (ewmLast (emaAlpha w) c cs) else none

/-- `Series.diff(1)` without its leading NaN. -/
def diffs : List ℚ → List ℚ
  | a :: b :: rest => (b - a) :: diffs (b :: rest)
  | _ => []

/-- Last value of `RSIIndicator(close, window=w)`: Wilder smoothing of the
gains and losses via `ewm(alpha=1/w, min_periods=w)` — the leading NaN of
`diff` is replaced by `0.0` by the `where` masks, so it seeds both
averages — and `np.where(emadn == 0, 100, 100 - 100/(1+rs))`. -/
def rsiLast (w : ℕ) (closes : List ℚ) : Option ℚ :=
  if w ≤ closes.length then
    let ds := diffs closes
    let avgUp := ewmLast (1 / (w : ℚ)) 0 (ds.map (fun d => max d 0))
    let avgDn := ewmLast (1 / (w : ℚ)) 0 (ds.map (fun d => max (-d) 0))
    some (if avgDn = 0 then 100 else 100 - 100 / (1 + avgUp / avgDn))
  else none

/-- Last value of `MACD(close).macd() = EMA(12) - EMA(26)`: NaN until the
slow EMA's 26 bars are available. -/
def macdLast : List ℚ → Option ℚ
  | [] => none
  | c :: cs =>
    if 26 ≤ cs.length + 1 then
      some (ewmLast (emaAlpha 12) c cs - ewmLast (emaAlpha 26) c cs)
    else none

/-- The defined part of the MACD series (bars 25 onward), over which the
signal line's EMA(9) runs. -/
def macdSeq (closes : List ℚ) : List ℚ :=
  (List.zipWith (fun u v => u - v)
    (ewmSeq (emaAlpha 12) closes) (ewmSeq (emaAlpha 26) closes)).drop 25

/-- Last value of `MACD(close).macd_signal() = EMA(9)` of the MACD series:
NaN until 9 defined MACD values exist (34 bars). -/
def macdSignalLast (closes : List ℚ) : Option ℚ :=
  if 9 ≤ (macdSeq closes).length then
    match macdSeq closes with
    | [] => none
    | x :: xs => some (ewmLast (emaAlpha 9) x xs)
  else none

/-- The indicator columns of the latest bar read by `analyze`
(`df.iloc[-1]`), each possibly NaN. -/
structure Snapshot where
  ema20 : Option ℚ
  ema200 : Option ℚ
  rsi : Option ℚ
  macd : Option ℚ
  macdSignal : Option ℚ

/-- The snapshot `analyze` computes from the fetched close series. -/
def snapshotOf (closes : List ℚ) : Snapshot :=
  { ema20 := emaLast 20 closes
    ema200 := emaLast 200 closes
    rsi := rsiLast 14 closes
    macd := macdLast closes
    macdSignal := macdSignalLast closes }

/-- Python `a > b` on possibly-NaN floats: false when either is NaN. -/
def ogt : Option ℚ → Option ℚ → Bool
  | some a, some b => decide (b < a)
  | _, _ => false

/-- Python `a < c` against a constant, false when `a` is NaN. -/
def oltC : Option ℚ → ℚ → Bool
  | some a, c => decide (a < c)
  | none, _ => false

/-- Python `a > c` against a constant, false when `a` is NaN. -/
def ogtC : Option ℚ → ℚ → Bool
  | some a, c => decide (c < a)
  | none, _ => false

/-- The signal/reason decision of `data_analyzer.analyze` (lines 50-62). -/
def synthesize (s : Snapshot) : String × String :=
  let trend_up := ogt s.ema20 s.ema200
  let macd_up := ogt s.macd s.macdSignal
  if trend_up && macd_up && oltC s.rsi 70 then
    ("LONG", "Cruce EMA + MACD alcista")
  else if !trend_up && !macd_up && ogtC s.rsi 30 then
    ("SHORT", "Cruce EMA bajista + MACD negativo")
  else
    ("NEUTRAL", "Condiciones mixtas")

/-- `confidence = round(float(np.clip(abs(rsi - 50) / 50, 0, 1)), 2)`;
NaN RSI propagates. -/
def confidenceOf (s : Snapshot) : Option ℚ :=
  s.rsi.map (fun r => roundTo 2 (clip01 (|r - 50| / 50)))

/-- The dict returned by `data_analyzer.analyze`. -/
structure AnalyzeResult where
  symbol : String
  timeframe : String
  signal : String
  confidence : Option ℚ
  reason : String
  rsi : Option ℚ
  ema20 : Option ℚ
  ema200 : Option ℚ

/-- `data_analyzer.analyze`, given the close series the (external)
MetaTrader collaborator fetched. -/
def analyze (symbol timeframe : String) (closes : List ℚ) : AnalyzeResult :=
  let snap := snapshotOf closes
  let sr := synthesize snap
  { symbol := symbol
    timeframe := timeframe
    signal := sr.1
    confidence := confidenceOf snap
    reason := sr.2
    rsi := snap.rsi.map (roundTo 2)
    ema20 := snap.ema20.map (roundTo 5)
    ema200 := snap.ema200.map (roundTo 5) }

/- ===== main.py ===== -/

/-- FastAPI `SignalResponse`. -/
structure Resp where
  signal : String
  pattern : Option String
  entry : Option ℚ
  stop : Option ℚ
  tp1 : Option ℚ
  tp2 : Option ℚ
  confidence : Option ℚ
  reason : Option String
  risk_percent : Option ℚ
  rr : Option ℚ
  warnings : List String

/-- Outcome of the inner `analyze_chart_image(pil_img)` call. -/
inductive VisionOutcome where
  | raises (err : String)
  | returns (r : VisionResult)

/-- What reached the `analyze_image` handler: no image at all, bytes that
`Image.open` cannot decode, or a decodable image together with the inner
analyzer call's outcome. -/
inductive ImageInput where
  | missing
  | invalidBytes (err : String)
  | valid (outcome : VisionOutcome)

/-- The vision dict relayed through the `SignalResponse` model. -/
def respOfVision (r : VisionResult) : Resp :=
  { signal := r.signal
    pattern := some r.pattern
    entry := some r.entry
    stop := some r.stop
    tp1 := some r.tp1
    tp2 := some r.tp2
    confidence := some r.confidence
    reason := some r.reason
    risk_percent := some r.risk_percent
    rr := some r.rr
    warnings := r.warnings }

/-- `main.analyze_image`: the decode happens inside the outer `try` but
outside the inner one, so a decode failure is caught by the outer handler;
only a failure of `analyze_chart_image` itself reaches the ERROR branch. -/
def analyze_image : ImageInput → Resp
  | .missing =>
    { signal := "NEUTRAL", pattern := none, entry := none, stop := none
      tp1 := none, tp2 := none, confidence := some 0
      reason := some "No se recibió archivo ni image_b64."
      risk_percent := none, rr := none, warnings := ["missing_image"] }
  | .invalidBytes e =>
    { signal := "NEUTRAL", pattern := none, entry := none, stop := none
      tp1 := none, tp2 := none, confidence := some 0
      reason := some ("Error al procesar la imagen: " ++ e)
      risk_percent := none, rr := none, warnings := ["image_decode_error"] }
  | .valid (.raises e) =>
    { signal := "ERROR", pattern := none, entry := none, stop := none
      tp1 := none, tp2 := none, confidence := none
      reason := some ("Error interno en vision_analyzer: " ++ e)
      risk_percent := none, rr := none, warnings := ["vision_analyzer falló"] }
  | .valid (.returns r) => respOfVision r

/-- `main.position_size`: `size = risk_amount / |entry - stop|` unless the
denominator is falsy (zero). -/
def position_size (account_balance risk_percent entry stop : ℚ) : ℚ × ℚ :=
  let risk_amount := account_balance * (risk_percent / 100)
  let risk_per_unit := |entry - stop|
  let size := if risk_per_unit ≠ 0 then risk_amount / risk_per_unit else 0
  (roundTo 4 size, roundTo 2 risk_amount)

/-- Outcome of `importlib.import_module("data_analyzer")` followed by
`analyzer.analyze(symbol, timeframe)`. -/
inductive ModuleOutcome where
  | notFound
  | raised (err : String)
  | ok (r : AnalyzeResult)

/-- The JSON object returned by `main.market_signal`. -/
structure MarketResp where
  ok : Bool
  data : Option AnalyzeResult
  warning : Option String
  error : Option String

/-- `main.market_signal`: relays `analyze`, substitutes a simulated LONG
when the module is missing, and maps any other exception to `ok: false`. -/
def market_signal (symbol timeframe : String) : ModuleOutcome → MarketResp
  | .ok r => { ok := true, data := some r, warning := none, error := none }
  | .notFound =>
    { ok := true
      data := some
        { symbol := symbol, timeframe := timeframe, signal := "LONG"
          confidence := some 0.8, reason := "Simulación: EMA200 y RSI alcistas"
          rsi := none, ema20 := none, ema200 := none }
      warning := some "⚠️ Módulo data_analyzer no encontrado; usando simulación."
      error := none }
  | .raised e => { ok := false, data := none, warning := none, error := some e }

/-- A 10-bar close series: too short for every indicator. -/
def short10 : List ℚ := [1, 2, 3, 4, 5, 6, 7, 8, 9, 10]

/-- A 16-bar alternating close series: long enough for RSI(14) but too
short for EMA(20), EMA(200) and MACD. -/
def alt16 : List ℚ :=
  [10, 11, 10, 11, 10, 11, 10, 11, 10, 11, 10, 11, 10, 11, 10, 11]

/-- A 14-bar flat close series: RSI is defined (avg loss 0 gives 100). -/
def flat14 : List ℚ := List.replicate 14 1

/- ===== helper lemmas ===== -/

lemma clip01_bounds (x : ℚ) : 0 ≤ clip01 x ∧ clip01 x ≤ 1 :=
  ⟨le_min (le_max_right x 0) zero_le_one, min_le_right _ _⟩

lemma roundHalfEven_bounds {x : ℚ} (h0 : 0 ≤ x) (h1 : x ≤ 100) :
    0 ≤ roundHalfEven x ∧ roundHalfEven x ≤ 100 := by
  have hfl : (0 : ℤ) ≤ ⌊x⌋ := Int.floor_nonneg.mpr h0
  have hfu : ⌊x⌋ ≤ 100 := by
    have : (⌊x⌋ : ℚ) ≤ 100 := le_trans (Int.floor_le x) h1
    exact_mod_cast this
  unfold roundHalfEven
  split
  · rename_i ht
    have hfu2 : ⌊x⌋ + 1 ≤ 100 := by
      have hq : (⌊x⌋ : ℚ) = x - 1 / 2 := by linarith
      have : (⌊x⌋ : ℚ) < 100 := by rw [hq]; linarith
      have : ⌊x⌋ < 100 := by exact_mod_cast this
      omega
    split <;> omega
  · rw [round_eq]
    constructor
    · exact Int.floor_nonneg.mpr (by linarith)
    · have h2 : (⌊x + 1 / 2⌋ : ℚ) < 101 :=
        lt_of_le_of_lt (Int.floor_le _) (by linarith)
      have : ⌊x + 1 / 2⌋ < 101 := by exact_mod_cast h2
      omega

lemma roundTo_two_bounds {q : ℚ} (h0 : 0 ≤ q) (h1 : q ≤ 1) :
    0 ≤ roundTo 2 q ∧ roundTo 2 q ≤ 1 := by
  have hx0 : (0 : ℚ) ≤ q * 10 ^ 2 := by positivity
  have hx1 : q * 10 ^ 2 ≤ 100 := by nlinarith
  obtain ⟨hl, hu⟩ := roundHalfEven_bounds hx0 hx1
  have hl' : (0 : ℚ) ≤ (roundHalfEven (q * 10 ^ 2) : ℚ) := by exact_mod_cast hl
  have hu' : (roundHalfEven (q * 10 ^ 2) : ℚ) ≤ 100 := by exact_mod_cast hu
  unfold roundTo
  constructor
  · positivity
  · rw [div_le_one (by norm_num)]
    exact le_trans hu' (by norm_num)

lemma ogt_none_right (a : Option ℚ) : ogt a none = false := by
  cases a <;> rfl

lemma synthesize_cases (s : Snapshot) :
    (synthesize s).1 = "LONG" ∨ (synthesize s).1 = "SHORT" ∨
      (synthesize s).1 = "NEUTRAL" := by
  simp only [synthesize]
  split
  · left; rfl
  · split
    · right; left; rfl
    · right; right; rfl

lemma emaLast_eq_none {w : ℕ} :
    ∀ {closes : List ℚ}, closes.length < w → emaLast w closes = none
  | [], _ => rfl
  | c :: cs, h => by
    rw [emaLast, if_neg]
    simp only [List.length_cons] at h
    omega

lemma emaLast_isSome {w : ℕ} :
    ∀ {closes : List ℚ}, 1 ≤ w → w ≤ closes.length → (emaLast w closes).isSome
  | [], h1, h2 => by simp at h2; omega
  | c :: cs, _, h2 => by
    rw [emaLast, if_pos]
    · rfl
    · simp only [List.length_cons] at h2
      omega

lemma rsiLast_isSome {closes : List ℚ} (h : 14 ≤ closes.length) :
    (rsiLast 14 closes).isSome := by
  rw [rsiLast, if_pos h]
  rfl

lemma macdLast_isSome :
    ∀ {closes : List ℚ}, 26 ≤ closes.length → (macdLast closes).isSome
  | [], h => by simp at h
  | c :: cs, h => by
    rw [macdLast, if_pos]
    · rfl
    · simp only [List.length_cons] at h
      omega

lemma ewmSeqFrom_length (a : ℚ) :
    ∀ (y : ℚ) (xs : List ℚ), (ewmSeqFrom a y xs).length = xs.length
  | _, [] => rfl
  | y, x :: xs => by
    simp only [ewmSeqFrom, List.length_cons, ewmSeqFrom_length a _ xs]

lemma ewmSeq_length (a : ℚ) : ∀ xs : List ℚ, (ewmSeq a xs).length = xs.length
  | [] => rfl
  | x :: xs => by simp only [ewmSeq, List.length_cons, ewmSeqFrom_length]

lemma macdSeq_length (closes : List ℚ) :
    (macdSeq closes).length = closes.length - 25 := by
  simp [macdSeq, ewmSeq_length]

lemma macdSignalLast_isSome {closes : List ℚ} (h : 34 ≤ closes.length) :
    (macdSignalLast closes).isSome := by
  have hlen : (macdSeq closes).length = closes.length - 25 := macdSeq_length closes
  rw [macdSignalLast, if_pos (by omega)]
  rcases hms : macdSeq closes with _ | ⟨x, xs⟩
  · rw [hms] at hlen
    simp at hlen
    omega
  · rfl

lemma find?_eq_some_of_split (p : String → Bool) :
    ∀ (pre : List String) (v : String) (rest : List String), p v = true →
      (∀ u ∈ pre, p u = false) → (pre ++ v :: rest).find? p = some v
  | [], v, rest, hv, _ => by simp [List.find?, hv]
  | u :: pre, v, rest, hv, hpre => by
    have hu : p u = false := hpre u (by simp)
    simp only [List.cons_append, List.find?, hu]
    exact find?_eq_some_of_split p pre v rest hv (fun w hw => hpre w (by simp [hw]))

lemma isInfix_map (f : Char → Char) {l₁ l₂ : List Char} (h : l₁ <:+: l₂) :
    l₁.map f <:+: l₂.map f := by
  obtain ⟨s, u, rfl⟩ := h
  exact ⟨s.map f, u.map f, by simp⟩

/- ===== the claims ===== -/

/-- C1 counterexample input: a contour count of 120 is classified
"Double Bottom", because the `> 50` branch is tested first. -/
theorem contour_threshold_order_cex :
    classifyPattern 120 = "Double Bottom" ∧
    classifyPattern 120 ≠ "Head and Shoulders" := by
  decide

/-- C1 (amended): classification tests `count > 50` first, so every count
above 50 — including every count above 100 — is "Double Bottom", the
"Head and Shoulders" branch is unreachable, and counts of at most 50 are
"Neutral"; in particular a count of 120 yields "Double Bottom". -/
theorem contour_threshold_order :
    (∀ n : ℕ, classifyPattern n ≠ "Head and Shoulders") ∧
    (∀ n : ℕ, 50 < n → classifyPattern n = "Double Bottom") ∧
    (∀ n : ℕ, n ≤ 50 → classifyPattern n = "Neutral") := by
  refine ⟨fun n => ?_, fun n h => ?_, fun n h => ?_⟩
  · unfold classifyPattern
    rcases Nat.lt_or_ge 50 n with h | h
    · simp [h]
    · rw [if_neg (by omega), if_neg (by omega)]
      decide
  · simp [classifyPattern, h]
  · unfold classifyPattern
    rw [if_neg (by omega), if_neg (by omega)]

/-- Witness for C1's amended theorem at concrete counts. -/
theorem contour_threshold_order_wit :
    classifyPattern 120 = "Double Bottom" ∧ classifyPattern 3 = "Neutral" :=
  ⟨contour_threshold_order.2.1 120 (by omega),
   contour_threshold_order.2.2 3 (by omega)⟩

/-- C10: the vision analyzer never produces pattern "Head and Shoulders"
nor signal "SHORT"; every image yields either ("Double Bottom", "LONG")
or ("Neutral", "NEUTRAL"). -/
theorem vision_reachable_outputs (img : ChartImage) :
    (analyze_chart_image img).pattern ≠ "Head and Shoulders" ∧
    (analyze_chart_image img).signal ≠ "SHORT" ∧
    (((analyze_chart_image img).pattern = "Double Bottom" ∧
        (analyze_chart_image img).signal = "LONG") ∨
      ((analyze_chart_image img).pattern = "Neutral" ∧
        (analyze_chart_image img).signal = "NEUTRAL")) := by
  unfold analyze_chart_image classifyPattern
  by_cases h : 50 < img.contourCount
  · simp [h]
  · by_cases h2 : 100 < img.contourCount
    · omega
    · simp [h, h2]

/-- C2 counterexample: on the vision path the confidence of a non-neutral
image is the integer 75 — a percent, not 0.75 and not inside [0,1]. -/
theorem vision_confidence_scale_cex :
    (analyze_chart_image ⟨"", 120⟩).confidence = 75 ∧
    ¬ (analyze_chart_image ⟨"", 120⟩).confidence ≤ 1 ∧
    (analyze_chart_image ⟨"", 120⟩).confidence ≠ 0.75 := by
  have h : (analyze_chart_image ⟨"", 120⟩).confidence = 75 := rfl
  rw [h]
  norm_num

/-- C2 (amended): on the indicator path every defined confidence lies in
[0,1]; on the vision path the confidence is the fixed percent 75 when the
contour count exceeds 50 (non-neutral, LONG) and 50 otherwise (NEUTRAL). -/
theorem confidence_bounds :
    (∀ (s t : String) (closes : List ℚ) (c : ℚ),
        (analyze s t closes).confidence = some c → 0 ≤ c ∧ c ≤ 1) ∧
    (∀ img : ChartImage, 50 < img.contourCount →
        (analyze_chart_image img).confidence = 75) ∧
    (∀ img : ChartImage, img.contourCount ≤ 50 →
        (analyze_chart_image img).confidence = 50) := by
  refine ⟨fun s t closes c hc => ?_, fun img h => ?_, fun img h => ?_⟩
  · simp only [analyze, confidenceOf, Option.map_eq_some'] at hc
    obtain ⟨r, _, hcr⟩ := hc
    subst hcr
    exact roundTo_two_bounds (clip01_bounds _).1 (clip01_bounds _).2
  · simp [analyze_chart_image, classifyPattern, h]
  · have h1 : ¬ (50 < img.contourCount) := by omega
    have h2 : ¬ (100 < img.contourCount) := by omega
    simp [analyze_chart_image, classifyPattern, h1, h2]

/-- Witness for C2's amended theorem: the flat 14-bar series has RSI 100,
hence confidence 1, which the theorem places in [0,1]; a 120-contour image
gets confidence 75. -/
theorem confidence_bounds_wit :
    (0 ≤ (1 : ℚ) ∧ (1 : ℚ) ≤ 1) ∧ (analyze_chart_image ⟨"", 120⟩).confidence = 75 := by
  constructor
  · refine confidence_bounds.1 "EURUSD" "H1" flat14 1 ?_
    norm_num [analyze, confidenceOf, snapshotOf, rsiLast, flat14, diffs,
      ewmLast, ewmStep, clip01, roundTo, roundHalfEven, List.replicate]
  · exact confidence_bounds.2.1 ⟨"", 120⟩ (by decide)

/-- C3 counterexample: undecodable image bytes are answered with signal
"NEUTRAL" and warnings ["image_decode_error"], not with direction ERROR
and warnings ["decode failed"]. -/
theorem decode_error_cex :
    (analyze_image (.invalidBytes "cannot identify image file")).signal = "NEUTRAL" ∧
    (analyze_image (.invalidBytes "cannot identify image file")).signal ≠ "ERROR" ∧
    (analyze_image (.invalidBytes "cannot identify image file")).warnings
      = ["image_decode_error"] ∧
    (analyze_image (.invalidBytes "cannot identify image file")).warnings
      ≠ ["decode failed"] := by
  refine ⟨rfl, by decide, rfl, by decide⟩

/-- C3 (amended): for every undecodable image the handler returns a
well-typed response — signal "NEUTRAL", no pattern, confidence 0, warnings
["image_decode_error"] — and, being a total function, lets no exception
escape. -/
theorem decode_error_resp (e : String) :
    (analyze_image (.invalidBytes e)).signal = "NEUTRAL" ∧
    (analyze_image (.invalidBytes e)).pattern = none ∧
    (analyze_image (.invalidBytes e)).confidence = some 0 ∧
    (analyze_image (.invalidBytes e)).warnings = ["image_decode_error"] :=
  ⟨rfl, rfl, rfl, rfl⟩

/-- C4 counterexample: a 10-bar series — far below the 200-bar window —
does not fail: `analyze` still returns a well-typed result (signal
"NEUTRAL") whose ema200 field is simply undefined. -/
theorem insufficient_data_cex :
    short10.length < 200 ∧
    (analyze "EURUSD" "H1" short10).signal = "NEUTRAL" ∧
    (analyze "EURUSD" "H1" short10).ema200 = none := by
  refine ⟨by norm_num [short10], ?_, ?_⟩
  · norm_num [analyze, synthesize, snapshotOf, emaLast, short10, macdLast,
      macdSignalLast, macdSeq, ewmSeq, ewmSeqFrom, rsiLast, diffs, ogt,
      ogtC, oltC]
  · norm_num [analyze, snapshotOf, emaLast, short10]

/-- C4 (amended): the indicator computation contains no bar-count check
and raises no error: with fewer than 200 bars ema200 is NaN (`none`) and a
well-typed signal is still produced; with at least 200 bars every
snapshot field is defined. -/
theorem insufficient_data_behavior :
    (∀ (s t : String) (closes : List ℚ), closes.length < 200 →
        (analyze s t closes).ema200 = none) ∧
    (∀ (s t : String) (closes : List ℚ), 200 ≤ closes.length →
        (analyze s t closes).ema20.isSome ∧ (analyze s t closes).ema200.isSome ∧
        (analyze s t closes).rsi.isSome ∧ (snapshotOf closes).macd.isSome ∧
        (snapshotOf closes).macdSignal.isSome) ∧
    (∀ (s t : String) (closes : List ℚ),
        (analyze s t closes).signal = "LONG" ∨
        (analyze s t closes).signal = "SHORT" ∨
        (analyze s t closes).signal = "NEUTRAL") := by
  refine ⟨fun s t closes h => ?_, fun s t closes h => ?_, fun s t closes => ?_⟩
  · simp [analyze, snapshotOf, emaLast_eq_none h]
  · refine ⟨?_, ?_, ?_, ?_, ?_⟩
    · simp only [analyze, Option.isSome_map']
      exact emaLast_isSome (by omega) (by omega)
    · simp only [analyze, Option.isSome_map']
      exact emaLast_isSome (by omega) (by omega)
    · simp only [analyze, Option.isSome_map']
      exact rsiLast_isSome (by omega)
    · exact macdLast_isSome (by omega)
    · exact macdSignalLast_isSome (by omega)
  · exact synthesize_cases (snapshotOf closes)

/-- Witness for C4's amended theorem at concrete series. -/
theorem insufficient_data_behavior_wit :
    (analyze "EURUSD" "H1" short10).ema200 = none ∧
    (analyze "EURUSD" "H1" (List.replicate 200 1)).ema200.isSome :=
  ⟨insufficient_data_behavior.1 "EURUSD" "H1" short10 (by norm_num [short10]),
   (insufficient_data_behavior.2.1 "EURUSD" "H1" (List.replicate 200 1)
      (le_of_eq (List.length_replicate 200 1).symm)).2.1⟩

/-- C5 counterexample: at the spec scenario's snapshot the decision is
LONG with confidence 0.10, but the reason string is the source's Spanish
"Cruce EMA + MACD alcista", not "bullish EMA+MACD crossover". -/
theorem bullish_reason_cex :
    (synthesize ⟨some 1.2050, some 1.2000, some 55, some 0.002, some 0.001⟩).2
      ≠ "bullish EMA+MACD crossover" ∧
    synthesize ⟨some 1.2050, some 1.2000, some 55, some 0.002, some 0.001⟩
      = ("LONG", "Cruce EMA + MACD alcista") ∧
    confidenceOf ⟨some 1.2050, some 1.2000, some 55, some 0.002, some 0.001⟩
      = some 0.1 := by
  have habs : |(55 : ℚ) - 50| = 5 := by rw [abs_of_pos] <;> norm_num
  have hsyn : synthesize ⟨some 1.2050, some 1.2000, some 55, some 0.002, some 0.001⟩
      = ("LONG", "Cruce EMA + MACD alcista") := by
    norm_num [synthesize, ogt, oltC]
  refine ⟨by rw [hsyn]; decide, hsyn, ?_⟩
  norm_num [confidenceOf, habs, clip01, min_def, max_def, roundTo, roundHalfEven]

/-- C5 (amended): whenever the fast EMA exceeds the slow EMA, the MACD
exceeds its signal line and RSI < 70, the indicator synthesis yields LONG
with the (Spanish) reason "Cruce EMA + MACD alcista" and confidence
round(clip(|rsi − 50|/50, 0, 1), 2). -/
theorem bullish_crossover (e20 e200 r m ms : ℚ)
    (h1 : e200 < e20) (h2 : ms < m) (h3 : r < 70) :
    synthesize ⟨some e20, some e200, some r, some m, some ms⟩
      = ("LONG", "Cruce EMA + MACD alcista") ∧
    confidenceOf ⟨some e20, some e200, some r, some m, some ms⟩
      = some (roundTo 2 (clip01 (|r - 50| / 50))) := by
  constructor
  · simp [synthesize, ogt, oltC, h1, h2, h3]
  · simp [confidenceOf]

/-- Witness for C5's amended theorem at the spec scenario. -/
theorem bullish_crossover_wit :
    synthesize ⟨some 1.2050, some 1.2000, some 55, some 0.002, some 0.001⟩
      = ("LONG", "Cruce EMA + MACD alcista") :=
  (bullish_crossover 1.2050 1.2000 55 0.002 0.001
    (by norm_num) (by norm_num) (by norm_num)).1

/-- C6: the position-sizing endpoint returns
(round4(risk_amount/|entry−stop|), round2(risk_amount)) with
risk_amount = balance·percent/100, returns size 0 when entry = stop, and
on the spec scenario yields (22222.2222, 100). -/
theorem position_size_spec :
    (∀ b p e s : ℚ, e ≠ s →
        position_size b p e s
          = (roundTo 4 (b * (p / 100) / |e - s|), roundTo 2 (b * (p / 100)))) ∧
    (∀ b p e s : ℚ, e = s → position_size b p e s = (0, roundTo 2 (b * (p / 100)))) ∧
    position_size 10000 1 1.2345 1.2300 = (22222.2222, 100) := by
  refine ⟨fun b p e s h => ?_, fun b p e s h => ?_, ?_⟩
  · rw [position_size, if_pos (abs_ne_zero.mpr (sub_ne_zero.mpr h))]
  · subst h
    rw [position_size]
    simp only [sub_self, abs_zero, ne_eq, not_true_eq_false, if_neg, ite_false]
    have h0 : roundTo 4 0 = 0 := by norm_num [roundTo, roundHalfEven]
    rw [h0]
  · have habs : |(9 / 2000 : ℚ)| = 9 / 2000 := abs_of_pos (by norm_num)
    norm_num [position_size, roundTo, roundHalfEven, habs, Int.fract, round_eq]

/-- Witness for C6's theorem: the nonzero-denominator branch at the spec
scenario and the entry = stop branch. -/
theorem position_size_spec_wit :
    position_size 10000 1 1.2345 1.2300
      = (roundTo 4 (10000 * ((1 : ℚ) / 100) / |1.2345 - 1.2300|),
         roundTo 2 (10000 * ((1 : ℚ) / 100))) ∧
    position_size 5 5 2 2 = (0, roundTo 2 (5 * ((5 : ℚ) / 100))) :=
  ⟨position_size_spec.1 10000 1 1.2345 1.2300 (by norm_num),
   position_size_spec.2.1 5 5 2 2 rfl⟩

/-- C7 counterexample: when the data_analyzer module is unavailable, the
market-signal endpoint answers ok: true with a simulated LONG — a guessed
direction despite the indicator data being unavailable. -/
theorem module_fallback_cex :
    (market_signal "EURUSD" "H1" .notFound).ok = true ∧
    ((market_signal "EURUSD" "H1" .notFound).data.map AnalyzeResult.signal)
      = some "LONG" := by
  exact ⟨rfl, rfl⟩

/-- C7 (amended): an exception from the analyzer yields ok: false with no
data; a missing module yields ok: true with a simulated LONG and a
warning; an undefined slow EMA (too few bars) blocks the LONG branch of
the synthesis but not the SHORT branch — a 16-bar series is answered
SHORT, not NEUTRAL, and without error. -/
theorem market_signal_paths :
    (∀ s t e : String, (market_signal s t (.raised e)).ok = false ∧
        (market_signal s t (.raised e)).data = none) ∧
    (∀ s t : String, (market_signal s t .notFound).ok = true ∧
        ((market_signal s t .notFound).data.map AnalyzeResult.signal) = some "LONG" ∧
        (market_signal s t .notFound).warning.isSome) ∧
    (∀ snap : Snapshot, snap.ema200 = none → (synthesize snap).1 ≠ "LONG") ∧
    (alt16.length < 200 ∧ (analyze "EURUSD" "H1" alt16).signal = "SHORT") := by
  refine ⟨fun s t e => ⟨rfl, rfl⟩, fun s t => ⟨rfl, rfl, rfl⟩,
    fun snap h => ?_, by norm_num [alt16], ?_⟩
  · have ht : ogt snap.ema20 snap.ema200 = false := by
      rw [h]; exact ogt_none_right _
    simp only [synthesize, ht, Bool.false_and, Bool.and_self, if_false,
      Bool.not_false, Bool.true_and, Bool.false_eq_true]
    split <;> decide
  · norm_num [analyze, synthesize, snapshotOf, emaLast, alt16, macdLast,
      macdSignalLast, macdSeq, ewmSeq, ewmSeqFrom, rsiLast, diffs, ewmLast,
      ewmStep, ogt, ogtC, oltC]

/-- Witness for C7's amended theorem: a snapshot with undefined slow EMA
is never answered LONG. -/
theorem market_signal_paths_wit :
    (synthesize ⟨none, none, some 50, none, none⟩).1 ≠ "LONG" :=
  market_signal_paths.2.2.1 ⟨none, none, some 50, none, none⟩ rfl

/-- C8 counterexample: an image classified "Neutral" still carries the
fixed placeholder price levels. -/
theorem placeholder_levels_cex :
    (analyze_chart_image ⟨"", 0⟩).pattern = "Neutral" ∧
    (analyze_chart_image ⟨"", 0⟩).entry = 1.2345 ∧
    (analyze_chart_image ⟨"", 0⟩).stop = 1.2300 :=
  ⟨rfl, rfl, rfl⟩

/-- C8 (amended): the vision path populates entry/stop/tp1/tp2 with the
fixed placeholders 1.2345/1.2300/1.2400/1.2450 for every image, neutral
patterns included. -/
theorem placeholder_levels (img : ChartImage) :
    (analyze_chart_image img).entry = 1.2345 ∧
    (analyze_chart_image img).stop = 1.2300 ∧
    (analyze_chart_image img).tp1 = 1.2400 ∧
    (analyze_chart_image img).tp2 = 1.2450 :=
  ⟨rfl, rfl, rfl, rfl⟩

/-- C9: the symbol and timeframe lookups scan the uppercased OCR text in
declaration order — no occurrence yields "Unknown", the first member of
the vocabulary that occurs as a substring wins — and any text containing
"M15" is assigned timeframe "M1", because "M1" is declared first and
occurs inside "M15". -/
theorem vocab_first_match :
    (∀ t : String, (∀ v ∈ timeframeVocab, occursIn v t = false) →
        ∀ n : ℕ, (analyze_chart_image ⟨t, n⟩).timeframe = "Unknown") ∧
    (∀ t : String, (∀ v ∈ symbolVocab, occursIn v t = false) →
        ∀ n : ℕ, (analyze_chart_image ⟨t, n⟩).symbol = "Unknown") ∧
    (∀ (t : String) (pre : List String) (v : String) (rest : List String),
        timeframeVocab = pre ++ v :: rest → occursIn v t = true →
        (∀ u ∈ pre, occursIn u t = false) →
        firstMatch timeframeVocab t = some v) ∧
    (∀ (t : String) (pre : List String) (v : String) (rest : List String),
        symbolVocab = pre ++ v :: rest → occursIn v t = true →
        (∀ u ∈ pre, occursIn u t = false) →
        firstMatch symbolVocab t = some v) ∧
    (∀ t : String, "M15".data <:+: t.data →
        ∀ n : ℕ, (analyze_chart_image ⟨t, n⟩).timeframe = "M1") := by
  refine ⟨fun t h n => ?_, fun t h n => ?_,
    fun t pre v rest hsplit hv hpre => ?_, fun t pre v rest hsplit hv hpre => ?_,
    fun t h n => ?_⟩
  · have hnone : firstMatch timeframeVocab t = none :=
      List.find?_eq_none.mpr (fun v hv => by simp [h v hv])
    simp [analyze_chart_image, hnone]
  · have hnone : firstMatch symbolVocab t = none :=
      List.find?_eq_none.mpr (fun v hv => by simp [h v hv])
    simp [analyze_chart_image, hnone]
  · rw [firstMatch, hsplit]
    exact find?_eq_some_of_split _ pre v rest hv hpre
  · rw [firstMatch, hsplit]
    exact find?_eq_some_of_split _ pre v rest hv hpre
  · have h1 : ("M1".data : List Char) <:+: "M15".data := by decide
    have h2 : ("M15".data : List Char).map Char.toUpper <:+: t.data.map Char.toUpper :=
      isInfix_map Char.toUpper h
    have h3 : ("M15".data : List Char).map Char.toUpper = "M15".data := by decide
    have h4 : ("M1".data : List Char) <:+: (upper t).data := by
      rw [h3] at h2
      exact h1.trans h2
    have h5 : occursIn "M1" t = true := by
      rw [occursIn]
      exact decide_eq_true h4
    have hfm : firstMatch timeframeVocab t = some "M1" := by
      rw [firstMatch, timeframeVocab]
      simp [List.find?, h5]
    simp [analyze_chart_image, hfm]

/-- Witness for C9 at concrete OCR texts: a text containing "M15" gets
timeframe "M1"; an empty text gets symbol "Unknown". -/
theorem vocab_first_match_wit :
    (analyze_chart_image ⟨"chart EURUSD M15", 0⟩).timeframe = "M1" ∧
    (analyze_chart_image ⟨"", 0⟩).symbol = "Unknown" :=
  ⟨vocab_first_match.2.2.2.2 "chart EURUSD M15" (by decide) 0,
   vocab_first_match.2.1 "" (by decide) 0⟩
